import Mathlib

/-!
Verification development for the ai_playground repository.

The embedding covers, from the source:
  - src/ai_pg/mcp_client/main.py : get_metadata_schema, get_resource_data
  - src/ai_pg/commands/generate_metadata.py : handle_user_message (event loop,
    failure classification, timing report) and generate_metadata (tool
    discovery, connect-error handling).

Timestamps are embedded as integers (an abstract monotone clock reading at
the moment the loop observes an event); Python floats are not modelled.
JSON values are embedded as a small inductive type.
-/

/-- JSON values, the codomain of the MCP tools. -/
inductive Json where
  | null : Json
  | bool (b : Bool) : Json
  | num (n : Int) : Json
  | str (s : String) : Json
  | arr (xs : List Json) : Json
  | obj (kvs : List (String × Json)) : Json

/-- Field lookup in a JSON object; none on non-objects. -/
def Json.lookup : Json → String → Option Json
  | .obj kvs, k => List.lookup k kvs
  | _, _ => none

/-- Embedding of get_metadata_schema from src/ai_pg/mcp_client/main.py.
The Python function takes no arguments and returns this literal dict;
the Unit argument stands for the (empty) argument list of one call. -/
def get_metadata_schema : Unit → Json := fun _ =>
  .obj [
    ("$schema", .str "http://json-schema.org/draft-07/schema#"),
    ("type", .str "object"),
    ("properties", .obj [
      ("title", .obj [("type", .str "string")]),
      ("notes", .obj [("type", .str "string")]),
      ("publisher", .obj [
        ("type", .arr [.str "object", .str "null"]),
        ("properties", .obj [
          ("name", .obj [("type", .str "string")]),
          ("email", .obj [("type", .str "string")])]),
        ("required", .arr [.str "name", .str "email"])]),
      ("tags", .obj [
        ("type", .str "array"),
        ("minItems", .num 1),
        ("items", .obj [
          ("type", .str "object"),
          ("properties", .obj [("name", .obj [("type", .str "string")])]),
          ("required", .arr [.str "name"])])]),
      ("license", .obj [("type", .arr [.str "string", .str "null"])]),
      ("organization", .obj [
        ("type", .arr [.str "object", .str "null"]),
        ("properties", .obj [
          ("name", .obj [("type", .str "string")]),
          ("title", .obj [("type", .str "string")])]),
        ("required", .arr [.str "name", .str "title"])]),
      ("update_frequency", .obj [
        ("type", .arr [.str "string", .str "null"]),
        ("enum", .arr [.str "daily", .str "weekly", .str "monthly",
          .str "quarterly", .str "biennially", .str "biannually",
          .str "annually", .str "infrequently", .str "never"])]),
      ("language", .obj [("type", .arr [.str "string", .str "null"])]),
      ("jurisdiction", .obj [("type", .arr [.str "string", .str "null"])])]),
    ("required", .arr [.str "title", .str "notes", .str "tags"]),
    ("additionalProperties", .bool false)]

/-- Claim C5: get_metadata_schema is pure, deterministic and idempotent
(every call returns the identical value), its schema requires exactly
title, notes, tags at top level, constrains tags to an array with
minItems 1, and sets additionalProperties to false. -/
theorem C5_metadata_schema_pure_and_shape :
    (∀ u v : Unit, get_metadata_schema u = get_metadata_schema v)
    ∧ Json.lookup (get_metadata_schema ()) "required"
        = some (.arr [.str "title", .str "notes", .str "tags"])
    ∧ Json.lookup (get_metadata_schema ()) "additionalProperties"
        = some (.bool false)
    ∧ ((Json.lookup (get_metadata_schema ()) "properties").bind
        (fun p => p.lookup "tags")).bind (fun t => t.lookup "minItems")
        = some (.num 1)
    ∧ ((Json.lookup (get_metadata_schema ()) "properties").bind
        (fun p => p.lookup "tags")).bind (fun t => t.lookup "type")
        = some (.str "array") := by
  refine ⟨fun u v => rfl, rfl, rfl, rfl, rfl⟩

/-!
Embedding of get_resource_data (src/ai_pg/mcp_client/main.py).

The filesystem is a finite association of paths to FileEntry values: a
FileEntry records how the pandas CSV reader parses the file bytes (none
means a parse failure, ParserError) and what the markdown reader extracts.
pathlib suffix and str.lower are embedded over character lists; str.lower
is modelled on the ASCII range, which covers every extension compared by
the source.
-/

/-- Lowercase one character, ASCII model of Python str.lower. -/
def lowerChar (c : Char) : Char :=
  if 'A' ≤ c ∧ c ≤ 'Z' then Char.ofNat (c.toNat + 32) else c

/-- Lowercase a string, ASCII model of Python str.lower. -/
def lowerString (s : String) : String :=
  String.mk (s.toList.map lowerChar)

/-- Final path component, model of pathlib Path.name: trailing slashes
are dropped, then the part after the last slash is taken. -/
def lastComponent (cs : List Char) : List Char :=
  ((cs.reverse.dropWhile (· = '/')).takeWhile (· ≠ '/')).reverse

/-- Index of the last dot in a character list, if any. -/
def lastDotIdx (cs : List Char) : Option Nat :=
  match cs.reverse.findIdx? (· = '.') with
  | none => none
  | some j => some (cs.length - 1 - j)

/-- Model of pathlib Path.suffix: the substring of the name from its last
dot, empty when the dot is the first or the last character of the name. -/
def pathSuffix (p : String) : String :=
  let name := lastComponent p.toList
  match lastDotIdx name with
  | none => ""
  | some i => if 0 < i ∧ i < name.length - 1 then String.mk (name.drop i) else ""

/-- Parsed view of a CSV file: ordered column names and data rows. -/
structure CsvFile where
  columns : List String
  rows : List (List String)

/-- One document extracted by the markdown reader. -/
structure MdDoc where
  idStr : String
  text : String
  meta : String

/-- How the readers see one file on disk. csvParse is the outcome of the
pandas CSV parser on the file bytes (none = ParserError); mdDocs is what
the markdown reader extracts. -/
structure FileEntry where
  csvParse : Option CsvFile
  mdDocs : List MdDoc

/-- Exceptions the readers raise: FileNotFoundError and ParserError. -/
inductive ToolErr where
  | notFound : ToolErr
  | parseError : ToolErr

/-- Model of pandas read_csv: FileNotFoundError on a missing path,
ParserError when the bytes do not parse as tabular data. -/
def readCsv (fs : List (String × FileEntry)) (p : String) :
    Except ToolErr CsvFile :=
  match List.lookup p fs with
  | none => .error .notFound
  | some entry =>
    match entry.csvParse with
    | none => .error .parseError
    | some f => .ok f

/-- Model of MarkdownReader load_data: FileNotFoundError on a missing
path, otherwise the extracted documents. -/
def loadMarkdown (fs : List (String × FileEntry)) (p : String) :
    Except ToolErr (List MdDoc) :=
  match List.lookup p fs with
  | none => .error .notFound
  | some entry => .ok entry.mdDocs

/-- Render one table row, part of the model of DataFrame.to_string. -/
def renderRow (r : List String) : String :=
  String.intercalate " " r

/-- Render a header plus rows as text, model of DataFrame.to_string
applied to the previewed frame. -/
def renderTable (cols : List String) (rows : List (List String)) : String :=
  String.intercalate "\n" (renderRow cols :: rows.map renderRow)

/-- Payload of the CSV branch: the column list and a rendering of
df.head(3), that is of the first 3 rows. -/
def mkCsvPayload (f : CsvFile) : Json :=
  .obj [("columns", .arr (f.columns.map .str)),
        ("sample", .str (renderTable f.columns (f.rows.take 3)))]

/-- Payload of the markdown branch: up to 3 extracted documents. -/
def mkMdPayload (docs : List MdDoc) : Json :=
  .obj [("format", .str "markdown"),
        ("documents", .arr ((docs.take 3).map (fun d =>
          .obj [("id", .str d.idStr), ("text", .str d.text),
                ("metadata", .str d.meta)])))]

/-- Payload of the fallback branch for an unsupported extension. -/
def mkUnsupportedPayload (suffix : String) : Json :=
  .obj [("error", .str "Unsupported file type"),
        ("supported_extensions",
          .arr [.str ".csv", .str ".md", .str ".markdown"]),
        ("received_extension", .str suffix)]

/-- Embedding of get_resource_data from src/ai_pg/mcp_client/main.py:
dispatch on the lowercased suffix of the path; CSV and markdown branches
read the file and may raise; any other extension yields the structured
unsupported payload. -/
def get_resource_data (fs : List (String × FileEntry)) (filepath : String) :
    Except ToolErr Json :=
  let suffix := lowerString (pathSuffix filepath)
  if suffix = ".csv" then
    match readCsv fs filepath with
    | .error e => .error e
    | .ok f => .ok (mkCsvPayload f)
  else if suffix = ".md" ∨ suffix = ".markdown" then
    match loadMarkdown fs filepath with
    | .error e => .error e
    | .ok docs => .ok (mkMdPayload docs)
  else
    .ok (mkUnsupportedPayload suffix)

/-- The three dispatch branches of get_resource_data. -/
inductive Branch where
  | csv : Branch
  | markdown : Branch
  | unsupported : Branch
deriving DecidableEq

/-- Branch selected by a given (already lowercased) suffix, following the
comparisons of the source. -/
def branchOfSuffix (s : String) : Branch :=
  if s = ".csv" then .csv
  else if s = ".md" ∨ s = ".markdown" then .markdown
  else .unsupported

/-- Branch get_resource_data takes for a given filepath. -/
def dispatchBranch (p : String) : Branch :=
  branchOfSuffix (lowerString (pathSuffix p))

/-- Body of each branch of get_resource_data, parameterized by the
selected branch. -/
def runBranch (fs : List (String × FileEntry)) (p : String) :
    Branch → Except ToolErr Json
  | .csv =>
    match readCsv fs p with
    | .error e => .error e
    | .ok f => .ok (mkCsvPayload f)
  | .markdown =>
    match loadMarkdown fs p with
    | .error e => .error e
    | .ok docs => .ok (mkMdPayload docs)
  | .unsupported => .ok (mkUnsupportedPayload (lowerString (pathSuffix p)))

/-!
Embedding of handle_user_message and generate_metadata
(src/ai_pg/commands/generate_metadata.py).

The event stream the loop consumes is a list of StreamEvent values, each
carrying the clock reading at the moment the loop observes it (the source
calls time.time() at that point). ToolCall and ToolCallResult carry only
the fields the loop reads: the tool name.
-/

/-- One event observed by the async-for loop of handle_user_message,
tagged with the clock reading at observation time. -/
inductive StreamEvent where
  | toolCall (tool_name : String) (t : Int) : StreamEvent
  | toolCallResult (tool_name : String) (t : Int) : StreamEvent

/-- State of the event loop: the tool_times dict (start time per tool
name) and the latencies reported so far, in report order. -/
structure LoopState where
  tool_times : List (String × Int)
  latencies : List (String × Int)

/-- Dict update: set key k to v, overwriting an existing entry in place,
appending otherwise — the semantics of tool_times[k] = v. -/
def updateTime (m : List (String × Int)) (k : String) (v : Int) :
    List (String × Int) :=
  match m with
  | [] => [(k, v)]
  | (k₀, v₀) :: rest =>
    if k₀ = k then (k, v) :: rest else (k₀, v₀) :: updateTime rest k v

/-- One iteration of the async-for loop: a ToolCall records the start
time for its name; a ToolCallResult reports a latency when its name is in
tool_times and is otherwise ignored. Entries are never removed. -/
def processEvent (s : LoopState) : StreamEvent → LoopState
  | .toolCall name t =>
    { s with tool_times := updateTime s.tool_times name t }
  | .toolCallResult name t =>
    match List.lookup name s.tool_times with
    | some start => { s with latencies := s.latencies ++ [(name, t - start)] }
    | none => s

/-- The whole event loop over a finite stream, starting from the empty
tool_times dict. -/
def processEvents (events : List StreamEvent) : LoopState :=
  events.foldl processEvent ⟨[], []⟩

/-- Final outcome of awaiting the handler in handle_user_message:
success, or one of the exceptions the source distinguishes. The
iteration-ceiling stop of the agent workflow also surfaces as a
WorkflowRuntimeError at this await. -/
inductive AgentFinal where
  | success (text : String) : AgentFinal
  | workflowRuntimeError (msg : String) : AgentFinal
  | responseError (msg : String) : AgentFinal
  | connectError (msg : String) : AgentFinal

/-- Whether the final outcome is a success. -/
def AgentFinal.isSuccess : AgentFinal → Bool
  | .success _ => true
  | _ => false

/-- What one call of handle_user_message produces: the latencies it
reported while streaming, its return value (or, as the error case, an
exception it lets propagate), and whether the total-time line was
printed. -/
structure HandleOutcome where
  latencies : List (String × Int)
  response : Except String String
  timeReported : Bool

/-- Embedding of handle_user_message: consume the stream, then await the
final value; WorkflowRuntimeError and ResponseError are caught and turned
into the fixed failure string, returned before the total-time report;
httpx ConnectError propagates to the caller; only the success path
reaches the total-time report. -/
def handle_user_message (events : List StreamEvent) (final : AgentFinal) :
    HandleOutcome :=
  let s := processEvents events
  match final with
  | .success text => ⟨s.latencies, .ok text, true⟩
  | .workflowRuntimeError e =>
    ⟨s.latencies, .ok ("Agent failed to produce a response. Error: " ++ e), false⟩
  | .responseError e =>
    ⟨s.latencies, .ok ("Agent failed to produce a response. Error: " ++ e), false⟩
  | .connectError e => ⟨s.latencies, .error e, false⟩

/-- Outcome of tool discovery (to_tool_list_async): the discovered tool
names, or unreachable (any exception from the MCP transport). -/
inductive DiscoveryResult where
  | ok (tools : List String) : DiscoveryResult
  | unreachable : DiscoveryResult

/-- Environment of one generate_metadata run: what discovery yields, the
events the agent stream emits, and the final await outcome. -/
structure GenEnv where
  discovery : DiscoveryResult
  events : List StreamEvent
  final : AgentFinal

/-- Trace of one generate_metadata run: how many discovery attempts were
made, whether the agent session was constructed, the message shown to the
user, and an exception escaping the command, if any. -/
structure GenTrace where
  discoveryAttempts : Nat
  agentConstructed : Bool
  message : String
  uncaught : Option String

/-- Embedding of generate_metadata: one discovery attempt inside try;
on failure print the fixed MCP message and return, the agent is never
constructed and discovery is never retried; otherwise build the agent,
run handle_user_message, and catch httpx ConnectError into the fixed
Ollama connectivity message. -/
def generate_metadata (env : GenEnv) : GenTrace :=
  match env.discovery with
  | .unreachable =>
    ⟨1, false, "Failed to create MCP tools. Please check the MCP client URL.", none⟩
  | .ok _ =>
    match (handle_user_message env.events env.final).response with
    | .ok r => ⟨1, true, r, none⟩
    | .error _ =>
      ⟨1, true,
       "Failed to connect to Ollama model. Please check the Ollama base URL.", none⟩

/-!
Agent-session iteration model.

Modelled from the spec: the iteration-ceiling enforcement itself lives in
the external agent-workflow library (handle_user_message only passes
max_iterations through to agent.run), so the round loop of the Agent
Session is embedded from the spec, section 4.3: state machine
Pending, then ToolCalling and ToolResult alternating, ending in
Completed, IterationCeilingReached or BackendFailure, with at most
iteration_ceiling tool-calling rounds.
-/

/-- Decision the agent takes at the start of one round. -/
inductive AgentStep where
  | callTool (name : String) : AgentStep
  | converge (answer : String) : AgentStep
  | fail (msg : String) : AgentStep

/-- Terminal outcome of one agent run. -/
inductive RunOutcome where
  | completed (answer : String) : RunOutcome
  | iterationCeilingReached : RunOutcome
  | backendFailure (msg : String) : RunOutcome

/-- Modelled from the spec: the round loop of the Agent Session run
method. count is the number of tool-calling rounds performed so far,
the second argument the remaining round budget; when the budget is
exhausted the run stops with IterationCeilingReached without consulting
the agent again. Returns the final iteration count and the outcome. -/
def runFrom (behavior : Nat → AgentStep) : Nat → Nat → Nat × RunOutcome
  | count, 0 => (count, .iterationCeilingReached)
  | count, budget + 1 =>
    match behavior count with
    | .converge a => (count, .completed a)
    | .fail m => (count, .backendFailure m)
    | .callTool _ => runFrom behavior (count + 1) budget

/-- Modelled from the spec: run the Agent Session with iteration ceiling
K against an agent whose decision at round i is behavior i. -/
def agentRun (K : Nat) (behavior : Nat → AgentStep) : Nat × RunOutcome :=
  runFrom behavior 0 K

/-- Whether a step is a tool call. -/
def AgentStep.isToolStep : AgentStep → Bool
  | .callTool _ => true
  | _ => false

/-- Substring test helpers: leadsWith needle hay is true when needle is
an initial segment of hay. -/
def leadsWith : List Char → List Char → Bool
  | [], _ => true
  | _ :: _, [] => false
  | a :: as, b :: bs => a = b && leadsWith as bs

/-- containsChars hay needle is true when needle occurs contiguously in
hay. -/
def containsChars (hay needle : List Char) : Bool :=
  match hay with
  | [] => needle.isEmpty
  | _ :: rest => leadsWith needle hay || containsChars rest needle

/-- Whether a user-facing message mentions connectivity. -/
def mentionsConnect (s : String) : Bool :=
  containsChars s.toList "connect".toList

/-- Fixture: a well-formed 5-row, 3-column CSV file. -/
def presentCsv : CsvFile :=
  ⟨["a", "b", "c"],
   [["1", "2", "3"], ["4", "5", "6"], ["7", "8", "9"],
    ["10", "11", "12"], ["13", "14", "15"]]⟩

/-- Fixture: a filesystem holding only that CSV file. -/
def presentFs : List (String × FileEntry) :=
  [("present.csv", ⟨some presentCsv, []⟩)]

/-- Dict update puts the new value under the key. -/
theorem lookup_updateTime_self (m : List (String × Int)) (k : String) (v : Int) :
    List.lookup k (updateTime m k v) = some v := by
  induction m with
  | nil => simp [updateTime]
  | cons hd tl ih =>
    obtain ⟨k₀, v₀⟩ := hd
    by_cases h : k₀ = k
    · simp [updateTime, h]
    · have hkk : (k == k₀) = false := by simp [Ne.symm h]
      simp [updateTime, h, List.lookup, hkk, ih]

/-- Claim C2: a ToolCallEvent records its issue time keyed by tool name,
overwriting any prior entry for that name; a ToolResultEvent with a
recorded issue time reports latency completed_at minus issued_at; a
ToolResultEvent with no recorded call for its name leaves the state
unchanged, so the loop neither crashes nor records a latency for it. -/
theorem C2_latency_tracking (s : LoopState) (name : String) (t : Int) :
    (List.lookup name (processEvent s (.toolCall name t)).tool_times = some t)
    ∧ (∀ start, List.lookup name s.tool_times = some start →
        processEvent s (.toolCallResult name t)
          = { s with latencies := s.latencies ++ [(name, t - start)] })
    ∧ (List.lookup name s.tool_times = none →
        processEvent s (.toolCallResult name t) = s) := by
  refine ⟨?_, ?_, ?_⟩
  · simpa [processEvent] using lookup_updateTime_self s.tool_times name t
  · intro start h
    simp [processEvent, h]
  · intro h
    simp [processEvent, h]

/-- Witness for C2 at concrete inputs: a call overwrites the stale entry
for the same name, a matched result reports 9 minus 7, and an unmatched
result is ignored. -/
theorem C2_latency_tracking_witness :
    (List.lookup "t1"
        (processEvent ⟨[("t1", 3)], []⟩ (.toolCall "t1" 7)).tool_times = some 7)
    ∧ processEvent ⟨[("t1", 7)], []⟩ (.toolCallResult "t1" 9)
        = ⟨[("t1", 7)], [("t1", 2)]⟩
    ∧ processEvent ⟨[], []⟩ (.toolCallResult "t1" 9) = ⟨[], []⟩ := by
  refine ⟨(C2_latency_tracking ⟨[("t1", 3)], []⟩ "t1" 7).1, ?_, ?_⟩
  · have h := (C2_latency_tracking ⟨[("t1", 7)], []⟩ "t1" 9).2.1 7 rfl
    simpa using h
  · exact (C2_latency_tracking ⟨[], []⟩ "t1" 9).2.2 rfl

/-- Claim C10: the loop never removes a recorded start entry after
matching it: after a ToolCallEvent for a name, a first ToolResultEvent
for that name is matched against the recorded start, the entry survives,
and a second ToolResultEvent with no intervening call is matched again
against the same most recent start time. -/
theorem C10_start_entry_never_removed (s : LoopState) (name : String)
    (t₁ t₂ t₃ : Int) :
    (processEvent s (.toolCall name t₁)).tool_times
        = updateTime s.tool_times name t₁
    ∧ List.lookup name (processEvent s (.toolCall name t₁)).tool_times = some t₁
    ∧ (processEvent (processEvent s (.toolCall name t₁))
        (.toolCallResult name t₂)).tool_times
        = (processEvent s (.toolCall name t₁)).tool_times
    ∧ (processEvent (processEvent s (.toolCall name t₁))
        (.toolCallResult name t₂)).latencies
        = s.latencies ++ [(name, t₂ - t₁)]
    ∧ (processEvent (processEvent (processEvent s (.toolCall name t₁))
        (.toolCallResult name t₂)) (.toolCallResult name t₃)).latencies
        = s.latencies ++ [(name, t₂ - t₁), (name, t₃ - t₁)] := by
  have h₁ : List.lookup name (updateTime s.tool_times name t₁) = some t₁ :=
    lookup_updateTime_self s.tool_times name t₁
  refine ⟨rfl, by simpa [processEvent] using h₁, ?_, ?_, ?_⟩
  · simp [processEvent, h₁]
  · simp [processEvent, h₁]
  · simp [processEvent, h₁]

/-- Unfolding equation of the round loop at a positive budget. -/
theorem runFrom_succ (behavior : Nat → AgentStep) (c n : Nat) :
    runFrom behavior c (n + 1)
      = (match behavior c with
        | .converge a => (c, RunOutcome.completed a)
        | .fail m => (c, RunOutcome.backendFailure m)
        | .callTool _ => runFrom behavior (c + 1) n) := rfl

/-- The final iteration count of the round loop never exceeds the count
so far plus the remaining budget. -/
theorem runFrom_count_le (behavior : Nat → AgentStep) :
    ∀ (n c : Nat), (runFrom behavior c n).1 ≤ c + n := by
  intro n
  induction n with
  | zero => intro c; simp [runFrom]
  | succ n ih =>
    intro c
    rw [runFrom_succ]
    cases hb : behavior c with
    | converge a => simp [hb]
    | fail m => simp [hb]
    | callTool name =>
      show (runFrom behavior (c + 1) n).1 ≤ c + (n + 1)
      exact le_trans (ih (c + 1)) (by omega)

/-- A run whose agent always calls a tool exhausts exactly the remaining
budget and stops at the ceiling. -/
theorem runFrom_never_converge (behavior : Nat → AgentStep)
    (h : ∀ i, (behavior i).isToolStep = true) :
    ∀ (n c : Nat), runFrom behavior c n = (c + n, .iterationCeilingReached) := by
  intro n
  induction n with
  | zero => intro c; simp [runFrom]
  | succ n ih =>
    intro c
    have hc := h c
    rw [runFrom_succ]
    cases hb : behavior c with
    | converge a => rw [hb] at hc; simp [AgentStep.isToolStep] at hc
    | fail m => rw [hb] at hc; simp [AgentStep.isToolStep] at hc
    | callTool name =>
      show runFrom behavior (c + 1) n = (c + (n + 1), .iterationCeilingReached)
      have h2 : c + 1 + n = c + (n + 1) := by omega
      rw [ih (c + 1), h2]

/-- Claim C1: with iteration ceiling K, the iteration count never exceeds
K; a run whose agent never converges performs exactly K tool-calling
rounds and terminates with IterationCeilingReached, an outcome distinct
from Completed and from BackendFailure, and never performs a round K+1. -/
theorem C1_iteration_ceiling (K : Nat) (behavior : Nat → AgentStep) :
    ((agentRun K behavior).1 ≤ K)
    ∧ ((∀ i, (behavior i).isToolStep = true) →
        agentRun K behavior = (K, .iterationCeilingReached))
    ∧ (∀ a m, RunOutcome.iterationCeilingReached ≠ .completed a
        ∧ RunOutcome.iterationCeilingReached ≠ .backendFailure m) := by
  refine ⟨?_, ?_, ?_⟩
  · simpa [agentRun] using runFrom_count_le behavior K 0
  · intro h
    simpa [agentRun] using runFrom_never_converge behavior h K 0
  · intro a m
    exact ⟨fun hc => RunOutcome.noConfusion hc, fun hc => RunOutcome.noConfusion hc⟩

/-- Witness for C1: with ceiling 3 and an agent that always calls a tool,
the run stops after exactly 3 rounds with IterationCeilingReached. -/
theorem C1_iteration_ceiling_witness :
    agentRun 3 (fun _ => .callTool "get_metadata_schema")
      = (3, .iterationCeilingReached) :=
  (C1_iteration_ceiling 3 (fun _ => .callTool "get_metadata_schema")).2.1
    (fun _ => rfl)

/-- Claim C3: each backend failure kind the source distinguishes is
converted to a fixed-format user-facing message — the caught workflow and
response errors embed the underlying cause, the connect error yields the
fixed Ollama message, which mentions connectivity — and in every case no
raw exception escapes generate_metadata. -/
theorem C3_backend_failure_classified (tools : List String)
    (events : List StreamEvent) (e : String) :
    ((generate_metadata ⟨.ok tools, events, .workflowRuntimeError e⟩).message
        = "Agent failed to produce a response. Error: " ++ e
      ∧ (generate_metadata ⟨.ok tools, events, .workflowRuntimeError e⟩).uncaught
        = none)
    ∧ ((generate_metadata ⟨.ok tools, events, .responseError e⟩).message
        = "Agent failed to produce a response. Error: " ++ e
      ∧ (generate_metadata ⟨.ok tools, events, .responseError e⟩).uncaught
        = none)
    ∧ ((generate_metadata ⟨.ok tools, events, .connectError e⟩).message
        = "Failed to connect to Ollama model. Please check the Ollama base URL."
      ∧ mentionsConnect
          (generate_metadata ⟨.ok tools, events, .connectError e⟩).message = true
      ∧ (generate_metadata ⟨.ok tools, events, .connectError e⟩).uncaught
        = none) := by
  refine ⟨⟨rfl, rfl⟩, ⟨rfl, rfl⟩, ⟨rfl, ?_, rfl⟩⟩
  show mentionsConnect
    "Failed to connect to Ollama model. Please check the Ollama base URL." = true
  decide

/-- Counterexample to claim C4 as stated: on a backend failure (here a
WorkflowRuntimeError) handle_user_message returns from the except branch
before the total-time line, so the elapsed wall-clock time is not
reported on that outcome. -/
theorem C4_counterexample :
    (handle_user_message [] (.workflowRuntimeError "boom")).timeReported
      = false := rfl

/-- Claim C4 amended: the total elapsed wall-clock time is reported
exactly on the success outcome; on a caught backend failure the failure
message is returned before the report, and on a connect error the
exception propagates first, so no failure path reports the time. -/
theorem C4_time_reported_iff_success (events : List StreamEvent)
    (final : AgentFinal) :
    (handle_user_message events final).timeReported = final.isSuccess := by
  cases final <;> rfl

/-- Claim C8: when discovery fails, generate_metadata reports the fixed
MCP message to the user, never constructs the agent session, lets no
exception escape, and makes exactly one discovery attempt — as every run
does, so discovery is never retried and occurs once per session. -/
theorem C8_discovery_failure (events : List StreamEvent) (final : AgentFinal) :
    (generate_metadata ⟨.unreachable, events, final⟩).message
      = "Failed to create MCP tools. Please check the MCP client URL."
    ∧ (generate_metadata ⟨.unreachable, events, final⟩).agentConstructed = false
    ∧ (generate_metadata ⟨.unreachable, events, final⟩).uncaught = none
    ∧ (∀ env : GenEnv, (generate_metadata env).discoveryAttempts = 1) := by
  refine ⟨rfl, rfl, rfl, ?_⟩
  intro env
  obtain ⟨d, evs, fin⟩ := env
  cases d with
  | unreachable => rfl
  | ok tools =>
    cases h : (handle_user_message evs fin).response <;>
      simp [generate_metadata, h]

/-- Claim C6: for any filepath whose lowercased suffix is none of .csv,
.md, .markdown, get_resource_data returns (never raises) the structured
unsupported payload, whose accepted-extension list is exactly
.csv, .md, .markdown. -/
theorem C6_unsupported_extension (fs : List (String × FileEntry)) (p : String)
    (h1 : lowerString (pathSuffix p) ≠ ".csv")
    (h2 : lowerString (pathSuffix p) ≠ ".md")
    (h3 : lowerString (pathSuffix p) ≠ ".markdown") :
    get_resource_data fs p
      = .ok (mkUnsupportedPayload (lowerString (pathSuffix p)))
    ∧ Json.lookup (mkUnsupportedPayload (lowerString (pathSuffix p)))
        "supported_extensions"
      = some (.arr [.str ".csv", .str ".md", .str ".markdown"]) := by
  constructor
  · simp [get_resource_data, h1, h2, h3]
  · rfl

/-- Witness for C6: a filepath with the unknown extension .unknownext
yields the unsupported payload. -/
theorem C6_unsupported_extension_witness :
    get_resource_data [] "x.unknownext"
      = .ok (mkUnsupportedPayload ".unknownext") := by
  have h := (C6_unsupported_extension [] "x.unknownext"
    (by decide) (by decide) (by decide)).1
  rw [show lowerString (pathSuffix "x.unknownext") = ".unknownext" from
    by decide] at h
  exact h

/-- Claim C7: on a filepath with CSV suffix, get_resource_data fails with
FileNotFoundError when the file is absent, with ParserError when its
bytes do not parse, and on an existing well-formed file returns the
ordered column names and a rendering of exactly the first 3 rows; a
5-row file is never previewed whole. -/
theorem C7_csv_contract (fs : List (String × FileEntry)) (p : String)
    (entry : FileEntry) (f : CsvFile)
    (hsuf : lowerString (pathSuffix p) = ".csv") :
    (List.lookup p fs = none → get_resource_data fs p = .error .notFound)
    ∧ (List.lookup p fs = some entry → entry.csvParse = none →
        get_resource_data fs p = .error .parseError)
    ∧ (List.lookup p fs = some entry → entry.csvParse = some f →
        get_resource_data fs p = .ok (mkCsvPayload f)
        ∧ mkCsvPayload f
          = .obj [("columns", .arr (f.columns.map .str)),
                  ("sample", .str (renderTable f.columns (f.rows.take 3)))])
    ∧ (f.rows.length = 5 → f.rows.take 3 ≠ f.rows) := by
  refine ⟨?_, ?_, ?_, ?_⟩
  · intro h
    simp [get_resource_data, hsuf, readCsv, h]
  · intro h hp
    simp [get_resource_data, hsuf, readCsv, h, hp]
  · intro h hp
    exact ⟨by simp [get_resource_data, hsuf, readCsv, h, hp], rfl⟩
  · intro h5 hcontra
    have hlen := congrArg List.length hcontra
    rw [List.length_take, h5] at hlen
    norm_num at hlen

/-- Witness for C7: the fixture 5-row, 3-column file present.csv yields
its 3 columns and a preview built from exactly the first 3 rows, and
that preview is not the whole file. -/
theorem C7_csv_contract_witness :
    get_resource_data presentFs "present.csv" = .ok (mkCsvPayload presentCsv)
    ∧ presentCsv.rows.take 3 ≠ presentCsv.rows := by
  have h := C7_csv_contract presentFs "present.csv"
    ⟨some presentCsv, []⟩ presentCsv (by decide)
  exact ⟨(h.2.2.1 rfl rfl).1, h.2.2.2 rfl⟩

/-- Claim C9: the branch get_resource_data takes is a function of the
lowercased suffix alone, and the uppercase extensions .CSV, .MD,
.MARKDOWN select the same branches as their lowercase forms. -/
theorem C9_case_insensitive_dispatch :
    (∀ (fs : List (String × FileEntry)) (p : String),
        get_resource_data fs p = runBranch fs p (dispatchBranch p))
    ∧ (∀ p q : String,
        lowerString (pathSuffix p) = lowerString (pathSuffix q) →
        dispatchBranch p = dispatchBranch q)
    ∧ dispatchBranch "x.CSV" = .csv
    ∧ dispatchBranch "x.CSV" = dispatchBranch "x.csv"
    ∧ dispatchBranch "x.MD" = .markdown
    ∧ dispatchBranch "x.MD" = dispatchBranch "x.md"
    ∧ dispatchBranch "x.MARKDOWN" = .markdown
    ∧ dispatchBranch "x.MARKDOWN" = dispatchBranch "x.markdown" := by
  refine ⟨?_, ?_, by decide, by decide, by decide, by decide, by decide,
    by decide⟩
  · intro fs p
    unfold get_resource_data runBranch dispatchBranch branchOfSuffix
    by_cases h1 : lowerString (pathSuffix p) = ".csv"
    · simp [h1]
    · by_cases h2 : lowerString (pathSuffix p) = ".md"
        ∨ lowerString (pathSuffix p) = ".markdown"
      · simp [h1, h2]
      · simp [h1, h2]
  · intro p q h
    unfold dispatchBranch
    rw [h]

/-- Witness for C9: the filepaths x.CSV and x.csv have equal lowercased
suffixes and so take the same branch, and on x.CSV get_resource_data
agrees with the branch selected by its lowercased suffix. -/
theorem C9_case_insensitive_dispatch_witness :
    dispatchBranch "x.CSV" = dispatchBranch "x.csv"
    ∧ get_resource_data [] "x.CSV"
        = runBranch [] "x.CSV" (dispatchBranch "x.CSV") :=
  ⟨C9_case_insensitive_dispatch.2.1 "x.CSV" "x.csv" (by decide),
   C9_case_insensitive_dispatch.1 [] "x.CSV"⟩
